import Mathlib

/-!
Verification of the antares procedural mesh generators.

The repository consists of Python scripts that build creature meshes
(vertex / triangle-index buffers) from numeric parameters and serialize
them into a textual asset format.  This file gives a shallow embedding of
the geometry builders and serializers and proves the specification claims
about them.

Modelling conventions:
* Python floats are idealized as real numbers (`ℝ`) in the trigonometric
  builders of `gen_detailed_meshes.py`, and as rationals (`ℚ`) in the
  purely arithmetic generators (`gen_dire_wolves.py`, `gen_monsters2.py`,
  `generate_characters.py`) and in the serialization layer, so that the
  definitions there are executable.
* A Python builder that returns the string `emit_mesh(name, verts,
  indices, color, normals)` is modelled as returning a `Mesh` record
  holding exactly the arguments of that `emit_mesh` call; the textual
  serialization itself is modelled separately.
* Python `for` loops that append to a list are modelled with
  `List.map` / `List.flatMap` over `List.range`.
* Exception behaviour (`ZeroDivisionError`) is modelled by `Except`
  variants of the builders in which every division or modulus by a
  segment count is guarded, mirroring Python evaluation order.
-/

namespace Antares

/-! ### Serialization helpers

The Python generators format floats three ways: an f-string with
format spec `.4f` in `gen_detailed_meshes.py`, one with `.3f` in
`gen_monsters2.py` and `generate_characters.py`, and plain `str(x)`
interpolation in `gen_dire_wolves.py`.  Numeric values are idealized as rationals;
`str` on a float is modelled as the exact terminating decimal
expansion of the value. -/

/-- The zero-padded fractional digit block of a fixed-precision decimal:
the last `nd` decimal digits of `m`, most significant first. -/
def fracDigits (nd m : ℕ) : List Char :=
  (List.range nd).reverse.map (fun j => Nat.digitChar (m / 10 ^ j % 10))

/-- Core of `fmtFixed`, on an explicit numerator / denominator pair:
`r = ⌊(n/d)·10^nd + 1/2⌋` rendered with exactly `nd` fractional digits.
(Rounding to nearest is computed on integers so the definition reduces.) -/
def fmtFixedRaw (nd : ℕ) (n : ℤ) (d : ℕ) : String :=
  let r : ℤ := (2 * n * 10 ^ nd + d).fdiv (2 * d)
  let a : ℕ := r.natAbs
  (if r < 0 then "-" else "") ++ toString (a / 10 ^ nd) ++ "." ++
    String.mk (fracDigits nd (a % 10 ^ nd))

/-- Python fixed-precision float formatting with `nd` decimals: round
to `nd` decimal places and print exactly `nd` fractional digits. -/
def fmtFixed (nd : ℕ) (q : ℚ) : String := fmtFixedRaw nd q.num q.den

/-- Smallest exponent `k ≤ 64` with `d ∣ 10 ^ k` (64 as a fallback that
no generator value reaches): the number of digits of the exact decimal
expansion of a reduced fraction with denominator `d`. -/
def decExp (d : ℕ) : ℕ :=
  ((List.range 64).find? (fun k => 10 ^ k % d == 0)).getD 64

/-- Core of `pyFloatStr`, on an explicit numerator / denominator pair. -/
def pyFloatStrRaw (n : ℤ) (d : ℕ) : String :=
  let k := decExp d
  let a : ℕ := n.natAbs * 10 ^ k / d
  (if n < 0 then "-" else "") ++ toString (a / 10 ^ k) ++ "." ++
    (if k = 0 then "0" else String.mk (fracDigits k (a % 10 ^ k)))

/-- Python `str(x)` on a float value, idealized to the exact terminating
decimal expansion (always at least one fractional digit, as Python
prints `2.0`, `0.9`, `-1.45705`). -/
def pyFloatStr (q : ℚ) : String := pyFloatStrRaw q.num q.den

/-- Number of characters after the last `.` of a rendered number. -/
def decimalPlaces (s : String) : ℕ :=
  ((s.data.reverse).takeWhile (fun ch => ch != '.')).length

/-- `prefixOfChars p s`: `p` is an initial run of `s` (character lists). -/
def prefixOfChars : List Char → List Char → Bool
  | [], _ => true
  | _ :: _, [] => false
  | a :: as, b :: bs => a == b && prefixOfChars as bs

/-- `hasSubstr p s`: `p` occurs contiguously inside `s`. -/
def hasSubstr (pat : List Char) : List Char → Bool
  | [] => prefixOfChars pat []
  | s@(_ :: rest) => prefixOfChars pat s || hasSubstr pat rest

/-! ### `gen_dire_wolves.py`

Dire-wolf variants built from axis-aligned boxes, flat quads and flat
triangles, all coordinates rational. -/

namespace DireWolves

/-- 3D point, modelling the Python 3-element list `[x, y, z]`. -/
abbrev Q3 := ℚ × ℚ × ℚ

/-- Arguments of an `emit_mesh` call in `gen_dire_wolves.py`:
name, vertex list, index list, optional normals and RGBA color. -/
structure Mesh where
  name : String
  verts : List Q3
  indices : List ℕ
  normals : Option (List Q3)
  color : List ℚ
deriving DecidableEq

/-- `def c(r,g,b,a=1.0): return [r,g,b,a]` -/
def c (r g b : ℚ) (a : ℚ := 1) : List ℚ := [r, g, b, a]

/-- `fv` (line 18): an f-string joining `str(v[0]), str(v[1]), str(v[2])`
in parentheses — plain `str` interpolation, no fixed-precision format
specifier. -/
def fv (v : Q3) : String :=
  "(" ++ pyFloatStr v.1 ++ ", " ++ pyFloatStr v.2.1 ++ ", " ++ pyFloatStr v.2.2 ++ ")"

/-- `emit_transform` (lines 47-50): the constant identity transform
record emitted once per mesh. -/
def emit_transform : String :=
  "        (\n            translation: (0.0, 0.0, 0.0),\n" ++
  "            rotation: (0.0, 0.0, 0.0),\n" ++
  "            scale: (1.0, 1.0, 1.0),\n        ),"

/-- The fixed 36-entry box index block `BOX_I` (lines 14-15). -/
def BOX_I : List ℕ :=
  [0,1,2,2,3,0, 1,5,6,6,2,1, 7,6,5,5,4,7,
   4,0,3,3,7,4, 4,5,1,1,0,4, 3,2,6,6,7,3]

/-- `box_v` (lines 21-23): 8 corner vertices, the `z0` face group first. -/
def box_v (x0 y0 z0 x1 y1 z1 : ℚ) : List Q3 :=
  [(x0,y0,z0),(x1,y0,z0),(x1,y1,z0),(x0,y1,z0),
   (x0,y0,z1),(x1,y0,z1),(x1,y1,z1),(x0,y1,z1)]

/-- `quad_v` (line 25). -/
def quad_v (v0 v1 v2 v3 : Q3) : List Q3 := [v0, v1, v2, v3]

/-- `quad_i` (line 26). -/
def quad_i : List ℕ := [0,1,2,0,2,3]

/-- `tri_v` (line 27). -/
def tri_v (v0 v1 v2 : Q3) : List Q3 := [v0, v1, v2]

/-- `tri_i` (line 28). -/
def tri_i : List ℕ := [0,1,2]

/-- `norm3` (line 29): `[[nx,ny,nz]]*n`. -/
def norm3 (nx ny nz : ℚ) (n : ℕ) : List Q3 := List.replicate n (nx, ny, nz)

/-- `box_mesh` (lines 64-65). -/
def box_mesh (name : String) (x0 y0 z0 x1 y1 z1 : ℚ) (color : List ℚ) : Mesh :=
  { name := name, verts := box_v x0 y0 z0 x1 y1 z1, indices := BOX_I,
    normals := none, color := color }

/-- `quad_mesh` (lines 67-68); keyword defaults `nx=0, ny=0, nz=1`. -/
def quad_mesh (name : String) (v0 v1 v2 v3 : Q3) (color : List ℚ)
    (nx : ℚ := 0) (ny : ℚ := 0) (nz : ℚ := 1) : Mesh :=
  { name := name, verts := quad_v v0 v1 v2 v3, indices := quad_i,
    normals := some (norm3 nx ny nz 4), color := color }

/-- `tri_mesh` (lines 70-71); keyword defaults `nx=0, ny=0, nz=1`. -/
def tri_mesh (name : String) (v0 v1 v2 : Q3) (color : List ℚ)
    (nx : ℚ := 0) (ny : ℚ := 0) (nz : ℚ := 1) : Mesh :=
  { name := name, verts := tri_v v0 v1 v2, indices := tri_i,
    normals := some (norm3 nx ny nz 3), color := color }

/-- Color constants (lines 78-91). -/
def WOLF_FUR : List ℚ := c 0.60 0.56 0.50
def WOLF_DARK : List ℚ := c 0.26 0.24 0.20
def EYE_YELLOW : List ℚ := c 0.88 0.78 0.10
def DIRE_FUR : List ℚ := c 0.72 0.70 0.68
def DIRE_DARK : List ℚ := c 0.45 0.43 0.40
def DIRE_EYE : List ℚ := c 0.95 0.60 0.10
def ALPHA_FUR : List ℚ := c 0.92 0.90 0.88
def ALPHA_DARK : List ℚ := c 0.65 0.63 0.60
def ALPHA_EYE : List ℚ := c 1.00 0.40 0.05
def SCAR_COLOR : List ℚ := c 0.75 0.50 0.45

/-- The three battle-scar meshes appended when `include_scars` is true
(lines 195-216), factored out verbatim from `build_wolf_base`. -/
def wolf_scar_meshes (bk bs eh : ℚ) : List Mesh :=
  [quad_mesh "scar_face"
      (-0.18*bk*bs,  0.08*bs, -0.751*bs)
      (-0.02*bk*bs,  0.24*bs, -0.751*bs)
      (-0.16*bk*bs,  0.10*bs, -0.751*bs)
      (-0.00*bk*bs,  0.26*bs, -0.751*bs)
      SCAR_COLOR 0 0 (-1),
   tri_mesh "ear_notch"
      (-0.12*bk*bs,  0.42*eh*bs, -0.645*bs)
      (-0.08*bk*bs,  0.42*eh*bs, -0.645*bs)
      (-0.10*bk*bs,  0.38*eh*bs, -0.645*bs)
      (c 0.20 0.16 0.14) 0 0 (-1),
   quad_mesh "scar_shoulder"
      (-0.24*bk*bs,  0.28*bs,  0.02*bs)
      (-0.14*bk*bs,  0.32*bs,  0.02*bs)
      (-0.22*bk*bs,  0.30*bs,  0.02*bs)
      (-0.12*bk*bs,  0.34*bs,  0.02*bs)
      SCAR_COLOR 0 0 1]

/-- The two spine-ridge meshes appended when `body_scale > 1.0`
(lines 220-231), factored out verbatim from `build_wolf_base`.
The Python calls pass only `ny=1`, so `nx=0, nz=1` keep their defaults. -/
def wolf_ridge_meshes (bk bs : ℚ) (dark_color : List ℚ) : List Mesh :=
  [tri_mesh "spine_ridge_0"
      (-0.04*bk*bs,  0.38*bs, -0.20*bs)
      ( 0.04*bk*bs,  0.38*bs, -0.20*bs)
      ( 0.00*bk*bs,  0.50*bs, -0.22*bs)
      dark_color 0 1 1,
   tri_mesh "spine_ridge_1"
      (-0.04*bk*bs,  0.38*bs,  0.00*bs)
      ( 0.04*bk*bs,  0.38*bs,  0.00*bs)
      ( 0.00*bk*bs,  0.48*bs, -0.02*bs)
      dark_color 0 1 1]

/-- `build_wolf_base` (lines 97-233): the parametric wolf Body-Plan
Composer.  15 base meshes, then the scar meshes if `include_scars`,
then the spine-ridge meshes if `body_scale > 1.0`. -/
def build_wolf_base (body_color dark_color eye_color : List ℚ)
    (body_scale : ℚ := 1) (bulk_scale : ℚ := 1) (snout_length : ℚ := 1)
    (ear_height : ℚ := 1) (include_scars : Bool := false) : List Mesh :=
  let bs := body_scale
  let bk := bulk_scale
  let sl := snout_length
  let eh := ear_height
  let meshes : List Mesh :=
    [box_mesh "body"
        (-0.28*bk*bs) (-0.05*bs) (-0.55*bs)
        ( 0.28*bk*bs) ( 0.38*bs) ( 0.22*bs) body_color,
     box_mesh "chest"
        (-0.22*bk*bs) ( 0.12*bs) (-0.58*bs)
        ( 0.22*bk*bs) ( 0.42*bs) (-0.28*bs) body_color,
     box_mesh "head"
        (-0.18*bk*bs) (-0.02*bs) (-0.76*bs)
        ( 0.18*bk*bs) ( 0.32*bs) (-0.52*bs) body_color,
     box_mesh "snout"
        (-0.10*bk*bs) (-0.06*bs) (-0.90*sl*bs)
        ( 0.10*bk*bs) ( 0.16*bs) (-0.74*sl*bs) dark_color,
     box_mesh "nostrils"
        (-0.05*bk*bs) (-0.04*bs) (-0.905*sl*bs)
        ( 0.05*bk*bs) ( 0.04*bs) (-0.895*sl*bs) (c 0.14 0.10 0.08),
     tri_mesh "left_ear"
        (-0.15*bk*bs,  0.30*bs, -0.64*bs)
        (-0.06*bk*bs,  0.30*bs, -0.64*bs)
        (-0.10*bk*bs,  (0.30 + 0.19*eh)*bs, -0.64*bs)
        dark_color 0 0 (-1),
     tri_mesh "right_ear"
        ( 0.06*bk*bs,  0.30*bs, -0.64*bs)
        ( 0.15*bk*bs,  0.30*bs, -0.64*bs)
        ( 0.10*bk*bs,  (0.30 + 0.19*eh)*bs, -0.64*bs)
        dark_color 0 0 (-1),
     quad_mesh "left_eye"
        (-0.14*bk*bs,  0.12*bs, -0.752*bs)
        (-0.08*bk*bs,  0.12*bs, -0.752*bs)
        (-0.14*bk*bs,  0.20*bs, -0.752*bs)
        (-0.08*bk*bs,  0.20*bs, -0.752*bs)
        eye_color 0 0 (-1),
     quad_mesh "right_eye"
        ( 0.08*bk*bs,  0.12*bs, -0.752*bs)
        ( 0.14*bk*bs,  0.12*bs, -0.752*bs)
        ( 0.08*bk*bs,  0.20*bs, -0.752*bs)
        ( 0.14*bk*bs,  0.20*bs, -0.752*bs)
        eye_color 0 0 (-1),
     box_mesh "front_left"
        (-0.28*bk*bs) (-0.50*bs) (-0.44*bs)
        (-0.18*bk*bs) (-0.06*bs) (-0.34*bs) body_color,
     box_mesh "front_right"
        ( 0.18*bk*bs) (-0.50*bs) (-0.44*bs)
        ( 0.28*bk*bs) (-0.06*bs) (-0.34*bs) body_color,
     box_mesh "hind_left"
        (-0.28*bk*bs) (-0.50*bs) ( 0.06*bs)
        (-0.18*bk*bs) (-0.06*bs) ( 0.18*bs) body_color,
     box_mesh "hind_right"
        ( 0.18*bk*bs) (-0.50*bs) ( 0.06*bs)
        ( 0.28*bk*bs) (-0.06*bs) ( 0.18*bs) body_color,
     box_mesh "tail"
        (-0.06*bk*bs) (-0.02*bs) ( 0.22*bs)
        ( 0.06*bk*bs) ( 0.28*bs) ( 0.54*bs) body_color,
     box_mesh "tail_tip"
        (-0.04*bk*bs) ( 0.26*bs) ( 0.46*bs)
        ( 0.04*bk*bs) ( 0.42*bs) ( 0.58*bs) dark_color]
  let meshes := if include_scars then meshes ++ wolf_scar_meshes bk bs eh else meshes
  let meshes := if body_scale > 1 then meshes ++ wolf_ridge_meshes bk bs dark_color else meshes
  meshes

end DireWolves

/-! ### `gen_monsters2.py` (shared geometry and serializer helpers) -/

namespace Monsters2

/-- The fixed 36-entry box index block `BOX_I` (lines 13-14). -/
def BOX_I : List ℕ :=
  [0,1,2,2,3,0, 1,5,6,6,2,1, 7,6,5,5,4,7,
   4,0,3,3,7,4, 4,5,1,1,0,4, 3,2,6,6,7,3]

/-- `box_v` (lines 16-20): 8 corner vertices, the `z0` face group first. -/
def box_v (x0 y0 z0 x1 y1 z1 : ℚ) : List (ℚ × ℚ × ℚ) :=
  [(x0,y0,z0),(x1,y0,z0),(x1,y1,z0),(x0,y1,z0),
   (x0,y0,z1),(x1,y0,z1),(x1,y1,z1),(x0,y1,z1)]

/-- `fv` (line 38): the three coordinates formatted with `.3f` inside
square brackets. -/
def fv (v : ℚ × ℚ × ℚ) : String :=
  "[" ++ fmtFixed 3 v.1 ++ ", " ++ fmtFixed 3 v.2.1 ++ ", " ++ fmtFixed 3 v.2.2 ++ "]"

/-- The record text written by `write_ron` (lines 75-90), with the
file-system part stripped.  Argument order follows the Python
signature (minus `filename`). -/
def write_ron_body (name : String) (scale health speed : ℚ) (note : String)
    (meshes : List String) : String :=
  "// " ++ name ++ "\n// " ++ note ++ "\nCreatureDefinition(\n    name: \"" ++
    name ++ "\",\n    scale: " ++ fmtFixed 2 scale ++ ",\n    health: " ++
    fmtFixed 1 health ++ ",\n    speed: " ++ fmtFixed 1 speed ++
    ",\n    meshes: [\n" ++ String.intercalate "\n" meshes ++ "\n    ],\n)\n"

end Monsters2

/-! ### `generate_characters.py` (shared cube helper) -/

namespace Characters

/-- `box` (lines 18-25): 8 corner vertices (`z1` face group first) plus
the fixed 36-entry index block. -/
def box (x0 y0 z0 x1 y1 z1 : ℚ) : List (ℚ × ℚ × ℚ) × List ℕ :=
  ([(x0,y0,z1),(x1,y0,z1),(x1,y1,z1),(x0,y1,z1),
    (x0,y0,z0),(x1,y0,z0),(x1,y1,z0),(x0,y1,z0)],
   [0,1,2,2,3,0, 1,5,6,6,2,1, 7,6,5,5,4,7,
    4,0,3,3,7,4, 4,5,1,1,0,4, 3,2,6,6,7,3])

end Characters

/-! ### Exception model

`Except` variants of the Primitive Builders mirror Python evaluation
order: every `/` or `%` whose divisor is a segment count is guarded, and
a loop (`mapE` / `flatMapE`) stops at the first raised exception. -/

/-- Python `x / n` (`n` an integer): `ZeroDivisionError` when `n = 0`. -/
noncomputable def pydiv (x : ℝ) (n : ℕ) : Except String ℝ :=
  if n = 0 then .error "ZeroDivisionError: division by zero" else .ok (x / n)

/-- Python `a % n` on integers: `ZeroDivisionError` when `n = 0`. -/
def pymod (a n : ℕ) : Except String ℕ :=
  if n = 0 then .error "ZeroDivisionError: integer modulo by zero" else .ok (a % n)

/-- A Python `for` loop appending one element per iteration, stopping at
the first exception. -/
def mapE {α β : Type*} (f : α → Except String β) : List α → Except String (List β)
  | [] => .ok []
  | a :: l => do
      let b ← f a
      let r ← mapE f l
      pure (b :: r)

/-- A Python `for` loop extending by a list per iteration, stopping at
the first exception. -/
def flatMapE {α β : Type*} (f : α → Except String (List β)) :
    List α → Except String (List β)
  | [] => .ok []
  | a :: l => do
      let b ← f a
      let r ← flatMapE f l
      pure (b ++ r)

/-! ### `gen_detailed_meshes.py`: geometry and serializer -/

namespace GenDetailed

/-- 3D point over `ℝ`, modelling the Python list `[x, y, z]`. -/
abbrev P3 := ℝ × ℝ × ℝ

/-- Arguments of an `emit_mesh` call in `gen_detailed_meshes.py` (line
23): name, vertex list, index list, optional normals, RGBA color. -/
structure Mesh where
  name : String
  verts : List P3
  indices : List ℕ
  normals : Option (List P3)
  color : List ℝ

/-- `def c(r,g,b,a=1.0)` (line 19). -/
def c (r g b : ℝ) (a : ℝ := 1) : List ℝ := [r, g, b, a]

/-- `cylinder` (lines 59-101): bottom cap centre, bottom ring, top ring,
top cap centre; bottom-cap fan, side quads split in two triangles,
top-cap fan around `top_center = len(verts) - 1`. -/
noncomputable def cylinder (name : String) (cx cy cz radius height : ℝ)
    (color : List ℝ) (segments : ℕ := 8) : Mesh :=
  let verts : List P3 :=
    [(cx, cy, cz)]
    ++ (List.range segments).map (fun (i : ℕ) =>
        let angle := ((i : ℝ) / segments) * 2 * Real.pi
        (cx + radius * Real.cos angle, cy, cz + radius * Real.sin angle))
    ++ (List.range segments).map (fun (i : ℕ) =>
        let angle := ((i : ℝ) / segments) * 2 * Real.pi
        (cx + radius * Real.cos angle, cy + height, cz + radius * Real.sin angle))
    ++ [(cx, cy + height, cz)]
  let bottomCap : List ℕ := (List.range segments).flatMap (fun (i : ℕ) =>
    [0, i + 1, (i + 1) % segments + 1])
  let sides : List ℕ := (List.range segments).flatMap (fun (i : ℕ) =>
    [i + 1, (i + 1) % segments + 1, i + 1 + segments,
     (i + 1) % segments + 1, (i + 1) % segments + 1 + segments, i + 1 + segments])
  let top_center := verts.length - 1
  let topCap : List ℕ := (List.range segments).flatMap (fun (i : ℕ) =>
    [top_center, (i + 1) % segments + 1 + segments, i + 1 + segments])
  { name := name, verts := verts, indices := bottomCap ++ sides ++ topCap,
    normals := none, color := color }

/-- `tapered_cylinder` (lines 103-141): bottom ring, top ring, then the
two cap-centre vertices appended after the side geometry; sides first,
then bottom and top cap fans. -/
noncomputable def tapered_cylinder (name : String)
    (cx cy cz radius_bottom radius_top height : ℝ) (color : List ℝ)
    (segments : ℕ := 8) : Mesh :=
  let ring_bottom : List P3 := (List.range segments).map (fun (i : ℕ) =>
    let angle := ((i : ℝ) / segments) * 2 * Real.pi
    (cx + radius_bottom * Real.cos angle, cy, cz + radius_bottom * Real.sin angle))
  let ring_top : List P3 := (List.range segments).map (fun (i : ℕ) =>
    let angle := ((i : ℝ) / segments) * 2 * Real.pi
    (cx + radius_top * Real.cos angle, cy + height, cz + radius_top * Real.sin angle))
  let sides : List ℕ := (List.range segments).flatMap (fun (i : ℕ) =>
    [i, (i + 1) % segments, i + segments,
     (i + 1) % segments, (i + 1) % segments + segments, i + segments])
  let center_bottom := (ring_bottom ++ ring_top).length
  let bottomCap : List ℕ := (List.range segments).flatMap (fun (i : ℕ) =>
    [center_bottom, (i + 1) % segments, i])
  let center_top := (ring_bottom ++ ring_top ++ [(cx, cy, cz)]).length
  let topCap : List ℕ := (List.range segments).flatMap (fun (i : ℕ) =>
    [center_top, i + segments, (i + 1) % segments + segments])
  { name := name,
    verts := ring_bottom ++ ring_top ++ [(cx, cy, cz)] ++ [(cx, cy + height, cz)],
    indices := sides ++ bottomCap ++ topCap, normals := none, color := color }

/-- `sphere_section` (lines 143-166): UV sphere over `segments_v + 1`
latitude rows times `segments_h` longitude columns; quads between
adjacent rows and (wrapping) columns, each split into two triangles. -/
noncomputable def sphere_section (name : String) (cx cy cz radius : ℝ)
    (color : List ℝ) (segments_h : ℕ := 6) (segments_v : ℕ := 6) : Mesh :=
  let verts : List P3 := (List.range (segments_v + 1)).flatMap (fun (v : ℕ) =>
    (List.range segments_h).map (fun (h : ℕ) =>
      let theta := ((v : ℝ) / segments_v) * Real.pi
      let phi := ((h : ℝ) / segments_h) * 2 * Real.pi
      (cx + radius * Real.sin theta * Real.cos phi,
       cy + radius * Real.cos theta,
       cz + radius * Real.sin theta * Real.sin phi)))
  let indices : List ℕ := (List.range segments_v).flatMap (fun (v : ℕ) =>
    (List.range segments_h).flatMap (fun (h : ℕ) =>
      let i1 := v * segments_h + h
      let i2 := v * segments_h + (h + 1) % segments_h
      let i3 := (v + 1) * segments_h + h
      let i4 := (v + 1) * segments_h + (h + 1) % segments_h
      [i1, i2, i3, i2, i4, i3]))
  { name := name, verts := verts, indices := indices, normals := none, color := color }

/-- `ellipsoid` (lines 168-190): as `sphere_section` but scaled
independently per axis by `rx, ry, rz`. -/
noncomputable def ellipsoid (name : String) (cx cy cz rx ry rz : ℝ)
    (color : List ℝ) (segments_h : ℕ := 8) (segments_v : ℕ := 6) : Mesh :=
  let verts : List P3 := (List.range (segments_v + 1)).flatMap (fun (v : ℕ) =>
    (List.range segments_h).map (fun (h : ℕ) =>
      let theta := ((v : ℝ) / segments_v) * Real.pi
      let phi := ((h : ℝ) / segments_h) * 2 * Real.pi
      (cx + rx * Real.sin theta * Real.cos phi,
       cy + ry * Real.cos theta,
       cz + rz * Real.sin theta * Real.sin phi)))
  let indices : List ℕ := (List.range segments_v).flatMap (fun (v : ℕ) =>
    (List.range segments_h).flatMap (fun (h : ℕ) =>
      let i1 := v * segments_h + h
      let i2 := v * segments_h + (h + 1) % segments_h
      let i3 := (v + 1) * segments_h + h
      let i4 := (v + 1) * segments_h + (h + 1) % segments_h
      [i1, i2, i3, i2, i4, i3]))
  { name := name, verts := verts, indices := indices, normals := none, color := color }

/-- `cone_mesh` (lines 192-219): base centre, base ring, apex; base cap
fan, then side triangles joining adjacent ring vertices to the apex. -/
noncomputable def cone_mesh (name : String) (cx cy cz radius height : ℝ)
    (color : List ℝ) (segments : ℕ := 8) : Mesh :=
  let ring : List P3 := (List.range segments).map (fun (i : ℕ) =>
    let angle := ((i : ℝ) / segments) * 2 * Real.pi
    (cx + radius * Real.cos angle, cy, cz + radius * Real.sin angle))
  let apex := ([(cx, cy, cz)] ++ ring).length
  let base : List ℕ := (List.range segments).flatMap (fun (i : ℕ) =>
    [0, (i + 1) % segments + 1, i + 1])
  let sides : List ℕ := (List.range segments).flatMap (fun (i : ℕ) =>
    [i + 1, (i + 1) % segments + 1, apex])
  { name := name, verts := [(cx, cy, cz)] ++ ring ++ [(cx, cy + height, cz)],
    indices := base ++ sides, normals := none, color := color }

/-- Position of the `j`-th index entry of a mesh: the vertex named by
`indices[j]`. -/
noncomputable def posAt (m : Mesh) (j : ℕ) : P3 :=
  m.verts.getD (m.indices.getD j 0) (0, 0, 0)

/-- `cylinder` with Python division semantics (`Except` model). -/
noncomputable def cylinderE (name : String) (cx cy cz radius height : ℝ)
    (color : List ℝ) (segments : ℕ := 8) : Except String Mesh := do
  let ring_bottom ← mapE (fun (i : ℕ) => do
      let q ← pydiv (i : ℝ) segments
      pure ((cx + radius * Real.cos (q * 2 * Real.pi), cy,
             cz + radius * Real.sin (q * 2 * Real.pi)) : P3))
    (List.range segments)
  let ring_top ← mapE (fun (i : ℕ) => do
      let q ← pydiv (i : ℝ) segments
      pure ((cx + radius * Real.cos (q * 2 * Real.pi), cy + height,
             cz + radius * Real.sin (q * 2 * Real.pi)) : P3))
    (List.range segments)
  let verts : List P3 := [(cx, cy, cz)] ++ ring_bottom ++ ring_top ++ [(cx, cy + height, cz)]
  let bottomCap ← flatMapE (fun (i : ℕ) => do
      let m ← pymod (i + 1) segments
      pure [0, i + 1, m + 1]) (List.range segments)
  let sides ← flatMapE (fun (i : ℕ) => do
      let m ← pymod (i + 1) segments
      pure [i + 1, m + 1, i + 1 + segments, m + 1, m + 1 + segments, i + 1 + segments])
    (List.range segments)
  let top_center := verts.length - 1
  let topCap ← flatMapE (fun (i : ℕ) => do
      let m ← pymod (i + 1) segments
      pure [top_center, m + 1 + segments, i + 1 + segments]) (List.range segments)
  pure { name := name, verts := verts, indices := bottomCap ++ sides ++ topCap,
         normals := none, color := color }

/-- `tapered_cylinder` with Python division semantics. -/
noncomputable def tapered_cylinderE (name : String)
    (cx cy cz radius_bottom radius_top height : ℝ) (color : List ℝ)
    (segments : ℕ := 8) : Except String Mesh := do
  let ring_bottom ← mapE (fun (i : ℕ) => do
      let q ← pydiv (i : ℝ) segments
      pure ((cx + radius_bottom * Real.cos (q * 2 * Real.pi), cy,
             cz + radius_bottom * Real.sin (q * 2 * Real.pi)) : P3)) (List.range segments)
  let ring_top ← mapE (fun (i : ℕ) => do
      let q ← pydiv (i : ℝ) segments
      pure ((cx + radius_top * Real.cos (q * 2 * Real.pi), cy + height,
             cz + radius_top * Real.sin (q * 2 * Real.pi)) : P3)) (List.range segments)
  let sides ← flatMapE (fun (i : ℕ) => do
      let m ← pymod (i + 1) segments
      pure [i, m, i + segments, m, m + segments, i + segments]) (List.range segments)
  let center_bottom := (ring_bottom ++ ring_top).length
  let bottomCap ← flatMapE (fun (i : ℕ) => do
      let m ← pymod (i + 1) segments
      pure [center_bottom, m, i]) (List.range segments)
  let center_top := (ring_bottom ++ ring_top ++ [(cx, cy, cz)]).length
  let topCap ← flatMapE (fun (i : ℕ) => do
      let m ← pymod (i + 1) segments
      pure [center_top, i + segments, m + segments]) (List.range segments)
  pure { name := name,
         verts := ring_bottom ++ ring_top ++ [(cx, cy, cz)] ++ [(cx, cy + height, cz)],
         indices := sides ++ bottomCap ++ topCap, normals := none, color := color }

/-- `sphere_section` with Python division semantics.  Note the latitude
loop runs over `range(segments_v + 1)`, so `v / segments_v` is evaluated
(at `v = 0`) even when `segments_v = 0`. -/
noncomputable def sphere_sectionE (name : String) (cx cy cz radius : ℝ)
    (color : List ℝ) (segments_h : ℕ := 6) (segments_v : ℕ := 6) :
    Except String Mesh := do
  let verts ← flatMapE (fun (v : ℕ) => do
      let tq ← pydiv (v : ℝ) segments_v
      mapE (fun (h : ℕ) => do
          let pq ← pydiv (h : ℝ) segments_h
          pure ((cx + radius * Real.sin (tq * Real.pi) * Real.cos (pq * 2 * Real.pi),
                 cy + radius * Real.cos (tq * Real.pi),
                 cz + radius * Real.sin (tq * Real.pi) * Real.sin (pq * 2 * Real.pi)) : P3))
        (List.range segments_h))
    (List.range (segments_v + 1))
  let indices ← flatMapE (fun (v : ℕ) =>
      flatMapE (fun (h : ℕ) => do
          let m ← pymod (h + 1) segments_h
          pure [v * segments_h + h, v * segments_h + m, (v + 1) * segments_h + h,
                v * segments_h + m, (v + 1) * segments_h + m, (v + 1) * segments_h + h])
        (List.range segments_h))
    (List.range segments_v)
  pure { name := name, verts := verts, indices := indices, normals := none,
         color := color }

/-- `ellipsoid` with Python division semantics. -/
noncomputable def ellipsoidE (name : String) (cx cy cz rx ry rz : ℝ)
    (color : List ℝ) (segments_h : ℕ := 8) (segments_v : ℕ := 6) :
    Except String Mesh := do
  let verts ← flatMapE (fun (v : ℕ) => do
      let tq ← pydiv (v : ℝ) segments_v
      mapE (fun (h : ℕ) => do
          let pq ← pydiv (h : ℝ) segments_h
          pure ((cx + rx * Real.sin (tq * Real.pi) * Real.cos (pq * 2 * Real.pi),
                 cy + ry * Real.cos (tq * Real.pi),
                 cz + rz * Real.sin (tq * Real.pi) * Real.sin (pq * 2 * Real.pi)) : P3))
        (List.range segments_h))
    (List.range (segments_v + 1))
  let indices ← flatMapE (fun (v : ℕ) =>
      flatMapE (fun (h : ℕ) => do
          let m ← pymod (h + 1) segments_h
          pure [v * segments_h + h, v * segments_h + m, (v + 1) * segments_h + h,
                v * segments_h + m, (v + 1) * segments_h + m, (v + 1) * segments_h + h])
        (List.range segments_h))
    (List.range segments_v)
  pure { name := name, verts := verts, indices := indices, normals := none,
         color := color }

/-- `cone_mesh` with Python division semantics. -/
noncomputable def cone_meshE (name : String) (cx cy cz radius height : ℝ)
    (color : List ℝ) (segments : ℕ := 8) : Except String Mesh := do
  let ring ← mapE (fun (i : ℕ) => do
      let q ← pydiv (i : ℝ) segments
      pure ((cx + radius * Real.cos (q * 2 * Real.pi), cy,
             cz + radius * Real.sin (q * 2 * Real.pi)) : P3))
    (List.range segments)
  let apex := ([(cx, cy, cz)] ++ ring).length
  let base ← flatMapE (fun (i : ℕ) => do
      let m ← pymod (i + 1) segments
      pure [0, m + 1, i + 1]) (List.range segments)
  let sides ← flatMapE (fun (i : ℕ) => do
      let m ← pymod (i + 1) segments
      pure [i + 1, m + 1, apex]) (List.range segments)
  pure { name := name, verts := [(cx, cy, cz)] ++ ring ++ [(cx, cy + height, cz)],
         indices := base ++ sides, normals := none, color := color }

/-- `fv` (line 20): the three coordinates formatted with `.4f` inside
parentheses.  Stated over rationals so that the formatter is
executable; the geometry layer below works over `ℝ`. -/
def fv (v : ℚ × ℚ × ℚ) : String :=
  "(" ++ fmtFixed 4 v.1 ++ ", " ++ fmtFixed 4 v.2.1 ++ ", " ++ fmtFixed 4 v.2.2 ++ ")"

/-- `emit_transform` (lines 39-42): the constant identity transform
record emitted once per mesh. -/
def emit_transform : String :=
  "        (\n            translation: (0.0, 0.0, 0.0),\n" ++
  "            rotation: (0.0, 0.0, 0.0),\n" ++
  "            scale: (1.0, 1.0, 1.0),\n        ),"

/-- Line 46 of `write_creature`: one transform entry per mesh. -/
def write_creature_transforms (meshes : List String) : List String :=
  meshes.map (fun _ => emit_transform)

/-- The record text written by `write_creature` (lines 44-53), with the
file-system part stripped. -/
def write_creature_body (creature_id : ℤ) (name : String)
    (meshes : List String) (scale : ℚ) : String :=
  let mesh_str := String.intercalate "\n" meshes
  let transforms := String.intercalate "\n" (write_creature_transforms meshes)
  "(\n    id: " ++ toString creature_id ++ ",\n    name: \"" ++ name ++
    "\",\n    meshes: [\n" ++ mesh_str ++ "\n    ],\n    " ++
    "mesh_transforms: [\n" ++ transforms ++ "\n    ],\n    scale: " ++
    pyFloatStr scale ++ ",\n    color_tint: None,\n)\n"

end GenDetailed

/-! ### Generic list and string lemmas -/

theorem length_flatMap_const {α β : Type*} (l : List α) (f : α → List β) (k : ℕ)
    (h : ∀ a ∈ l, (f a).length = k) : (l.flatMap f).length = l.length * k := by
  induction l with
  | nil => simp
  | cons a t ih =>
      simp only [List.flatMap_cons, List.length_append, List.length_cons]
      rw [h a (by simp), ih (fun b hb => h b (by simp [hb]))]
      ring

theorem getD_range_flatMap {α : Type*} (f : ℕ → List α) (k n v j : ℕ) (d : α)
    (hk : ∀ i < n, (f i).length = k) (hv : v < n) (hj : j < k) :
    ((List.range n).flatMap f).getD (v * k + j) d = (f v).getD j d := by
  induction n with
  | zero => omega
  | succ m ih =>
      rw [List.range_succ, List.flatMap_append]
      have hlen : ((List.range m).flatMap f).length = m * k := by
        rw [length_flatMap_const _ _ k (fun a ha => hk a (by
          have := List.mem_range.mp ha; omega))]
        simp
      rcases Nat.lt_or_ge v m with hvm | hvm
      · rw [List.getD_append _ _ _ _ (by
          have : v * k + j < (v + 1) * k := by nlinarith
          have : (v + 1) * k ≤ m * k := Nat.mul_le_mul_right _ (by omega)
          omega)]
        exact ih (fun i hi => hk i (by omega)) hvm
      · have hvem : v = m := by omega
        subst hvem
        rw [List.getD_append_right _ _ _ _ (by omega)]
        simp [hlen]

theorem takeWhile_append_cons {α : Type*} (p : α → Bool) (l₁ l₂ : List α) (a : α)
    (h₁ : ∀ x ∈ l₁, p x = true) (ha : p a = false) :
    (l₁ ++ a :: l₂).takeWhile p = l₁ := by
  induction l₁ with
  | nil => simp [List.takeWhile_cons, ha]
  | cons x t ih =>
      simp [List.takeWhile_cons, h₁ x (by simp),
        ih (fun y hy => h₁ y (by simp [hy]))]

theorem digitChar_ne_dot (d : ℕ) : Nat.digitChar (d % 10) ≠ '.' := by
  have hall : ∀ k < 10, Nat.digitChar k ≠ '.' := by decide
  exact hall _ (Nat.mod_lt _ (by norm_num))

theorem decimalPlaces_append_frac (s : String) (frac : List Char)
    (h : ∀ ch ∈ frac, ch ≠ '.') :
    decimalPlaces (s ++ "." ++ String.mk frac) = frac.length := by
  have hdata : (s ++ "." ++ String.mk frac).data = s.data ++ ('.' :: frac) := by
    simp [String.data_append]
  rw [decimalPlaces, hdata, List.reverse_append, List.reverse_cons, List.append_assoc,
    List.singleton_append,
    takeWhile_append_cons _ _ _ _ (fun x hx => by
      simpa using h x (List.mem_reverse.mp hx)) (by decide),
    List.length_reverse]

theorem fracDigits_length (nd m : ℕ) : (fracDigits nd m).length = nd := by
  simp [fracDigits]

theorem fracDigits_ne_dot (nd m : ℕ) : ∀ ch ∈ fracDigits nd m, ch ≠ '.' := by
  intro ch hch
  simp only [fracDigits, List.mem_map] at hch
  obtain ⟨j, _, rfl⟩ := hch
  exact digitChar_ne_dot _

theorem decimalPlaces_fmtFixed (nd : ℕ) (q : ℚ) :
    decimalPlaces (fmtFixed nd q) = nd := by
  simp only [fmtFixed, fmtFixedRaw]
  rw [decimalPlaces_append_frac _ _ (fracDigits_ne_dot _ _), fracDigits_length]

theorem prefixOfChars_append (p r : List Char) : prefixOfChars p (p ++ r) = true := by
  induction p with
  | nil => simp [prefixOfChars]
  | cons a as ih => simp [prefixOfChars, ih]

theorem hasSubstr_here (p r : List Char) : hasSubstr p (p ++ r) = true := by
  cases p with
  | nil =>
      cases r with
      | nil => rfl
      | cons x xs => simp [hasSubstr, prefixOfChars]
  | cons a as =>
      simp only [hasSubstr, Bool.or_eq_true]
      exact Or.inl (prefixOfChars_append (a :: as) r)

theorem hasSubstr_append_right (p l₁ l₂ : List Char) (h : hasSubstr p l₂ = true) :
    hasSubstr p (l₁ ++ l₂) = true := by
  induction l₁ with
  | nil => exact h
  | cons x t ih => simp [hasSubstr, ih]

theorem hasSubstr_prefix_append (p c r : List Char) :
    hasSubstr p ((p ++ c) ++ r) = true := by
  rw [List.append_assoc]
  exact hasSubstr_here _ _

theorem length_flatMap_range_const {β : Type*} (s : ℕ) (f : ℕ → List β) (k : ℕ)
    (h : ∀ i, (f i).length = k) : ((List.range s).flatMap f).length = s * k := by
  rw [length_flatMap_const _ _ k (fun a _ => h a)]
  simp

theorem getD_range_map {α : Type*} (g : ℕ → α) (H h : ℕ) (hh : h < H) (d : α) :
    ((List.range H).map g).getD h d = g h := by
  rw [List.getD_eq_getElem _ _ (by simpa using hh)]
  simp

/-! ### Vertex- and index-count lemmas for the Primitive Builders -/

theorem cylinder_verts_length (nm : String) (cx cy cz r ht : ℝ) (col : List ℝ) (s : ℕ) :
    (GenDetailed.cylinder nm cx cy cz r ht col s).verts.length = 2 * s + 2 := by
  simp [GenDetailed.cylinder]
  omega

theorem cylinder_indices_length (nm : String) (cx cy cz r ht : ℝ) (col : List ℝ) (s : ℕ) :
    (GenDetailed.cylinder nm cx cy cz r ht col s).indices.length = 12 * s := by
  simp [GenDetailed.cylinder, List.length_flatMap, Function.comp_def, List.map_const',
    List.sum_replicate, smul_eq_mul]
  ring

theorem tapered_verts_length (nm : String) (cx cy cz rb rt ht : ℝ) (col : List ℝ) (s : ℕ) :
    (GenDetailed.tapered_cylinder nm cx cy cz rb rt ht col s).verts.length = 2 * s + 2 := by
  simp [GenDetailed.tapered_cylinder]
  omega

theorem tapered_indices_length (nm : String) (cx cy cz rb rt ht : ℝ) (col : List ℝ) (s : ℕ) :
    (GenDetailed.tapered_cylinder nm cx cy cz rb rt ht col s).indices.length = 12 * s := by
  simp [GenDetailed.tapered_cylinder, List.length_flatMap, Function.comp_def,
    List.map_const', List.sum_replicate, smul_eq_mul]
  ring

theorem cone_verts_length (nm : String) (cx cy cz r ht : ℝ) (col : List ℝ) (s : ℕ) :
    (GenDetailed.cone_mesh nm cx cy cz r ht col s).verts.length = s + 2 := by
  simp [GenDetailed.cone_mesh]

theorem cone_indices_length (nm : String) (cx cy cz r ht : ℝ) (col : List ℝ) (s : ℕ) :
    (GenDetailed.cone_mesh nm cx cy cz r ht col s).indices.length = 6 * s := by
  simp [GenDetailed.cone_mesh, List.length_flatMap, Function.comp_def, List.map_const',
    List.sum_replicate, smul_eq_mul]
  ring

theorem sphere_verts_length (nm : String) (cx cy cz r : ℝ) (col : List ℝ) (H V : ℕ) :
    (GenDetailed.sphere_section nm cx cy cz r col H V).verts.length = (V + 1) * H := by
  simp [GenDetailed.sphere_section, List.length_flatMap, Function.comp_def,
    List.map_const', List.sum_replicate, smul_eq_mul]

theorem sphere_indices_length (nm : String) (cx cy cz r : ℝ) (col : List ℝ) (H V : ℕ) :
    (GenDetailed.sphere_section nm cx cy cz r col H V).indices.length = 6 * V * H := by
  simp [GenDetailed.sphere_section, List.length_flatMap, Function.comp_def,
    List.map_const', List.sum_replicate, smul_eq_mul]
  ring

theorem ellipsoid_verts_length (nm : String) (cx cy cz rx ry rz : ℝ) (col : List ℝ) (H V : ℕ) :
    (GenDetailed.ellipsoid nm cx cy cz rx ry rz col H V).verts.length = (V + 1) * H := by
  simp [GenDetailed.ellipsoid, List.length_flatMap, Function.comp_def,
    List.map_const', List.sum_replicate, smul_eq_mul]

theorem ellipsoid_indices_length (nm : String) (cx cy cz rx ry rz : ℝ) (col : List ℝ) (H V : ℕ) :
    (GenDetailed.ellipsoid nm cx cy cz rx ry rz col H V).indices.length = 6 * V * H := by
  simp [GenDetailed.ellipsoid, List.length_flatMap, Function.comp_def,
    List.map_const', List.sum_replicate, smul_eq_mul]
  ring

/-! ### Index-bound lemmas for the Primitive Builders -/

theorem cylinder_indices_lt (nm : String) (cx cy cz r ht : ℝ) (col : List ℝ) (s : ℕ) :
    ∀ j ∈ (GenDetailed.cylinder nm cx cy cz r ht col s).indices, j < 2 * s + 2 := by
  intro j hj
  simp only [GenDetailed.cylinder, List.mem_append, List.mem_flatMap, List.mem_range,
    List.mem_cons, List.not_mem_nil, or_false, List.length_append, List.length_map,
    List.length_range, List.length_cons, List.length_nil] at hj
  rcases hj with (⟨i, hi, rfl | rfl | rfl⟩ | ⟨i, hi, rfl | rfl | rfl | rfl | rfl | rfl⟩) |
    ⟨i, hi, rfl | rfl | rfl⟩
  all_goals
    first
      | omega
      | (have hm : (i + 1) % s < s := Nat.mod_lt _ (by omega); omega)

theorem tapered_indices_lt (nm : String) (cx cy cz rb rt ht : ℝ) (col : List ℝ) (s : ℕ) :
    ∀ j ∈ (GenDetailed.tapered_cylinder nm cx cy cz rb rt ht col s).indices, j < 2 * s + 2 := by
  intro j hj
  simp only [GenDetailed.tapered_cylinder, List.mem_append, List.mem_flatMap, List.mem_range,
    List.mem_cons, List.not_mem_nil, or_false, List.length_append, List.length_map,
    List.length_range, List.length_cons, List.length_nil] at hj
  rcases hj with (⟨i, hi, rfl | rfl | rfl | rfl | rfl | rfl⟩ | ⟨i, hi, rfl | rfl | rfl⟩) |
    ⟨i, hi, rfl | rfl | rfl⟩
  all_goals
    first
      | omega
      | (have hm : (i + 1) % s < s := Nat.mod_lt _ (by omega); omega)

theorem cone_indices_lt (nm : String) (cx cy cz r ht : ℝ) (col : List ℝ) (s : ℕ) :
    ∀ j ∈ (GenDetailed.cone_mesh nm cx cy cz r ht col s).indices, j < s + 2 := by
  intro j hj
  simp only [GenDetailed.cone_mesh, List.mem_append, List.mem_flatMap, List.mem_range,
    List.mem_cons, List.not_mem_nil, or_false, List.length_append, List.length_map,
    List.length_range, List.length_cons, List.length_nil] at hj
  rcases hj with ⟨i, hi, rfl | rfl | rfl⟩ | ⟨i, hi, rfl | rfl | rfl⟩
  all_goals
    first
      | omega
      | (have hm : (i + 1) % s < s := Nat.mod_lt _ (by omega); omega)

theorem sphere_indices_lt (nm : String) (cx cy cz r : ℝ) (col : List ℝ) (H V : ℕ) :
    ∀ j ∈ (GenDetailed.sphere_section nm cx cy cz r col H V).indices, j < (V + 1) * H := by
  intro j hj
  simp only [GenDetailed.sphere_section, List.mem_flatMap, List.mem_range,
    List.mem_cons, List.not_mem_nil, or_false] at hj
  obtain ⟨v, hv, h, hh, hj⟩ := hj
  have hkey : ∀ a b : ℕ, a ≤ V → b < H → a * H + b < (V + 1) * H := by
    intro a b ha hb
    calc a * H + b < a * H + H := by omega
    _ = (a + 1) * H := by ring
    _ ≤ (V + 1) * H := Nat.mul_le_mul_right _ (by omega)
  have hm : (h + 1) % H < H := Nat.mod_lt _ (by omega)
  rcases hj with rfl | rfl | rfl | rfl | rfl | rfl <;>
    first
      | exact hkey v h (by omega) hh
      | exact hkey v ((h + 1) % H) (by omega) hm
      | exact hkey (v + 1) h (by omega) hh
      | exact hkey (v + 1) ((h + 1) % H) (by omega) hm

theorem ellipsoid_indices_lt (nm : String) (cx cy cz rx ry rz : ℝ) (col : List ℝ) (H V : ℕ) :
    ∀ j ∈ (GenDetailed.ellipsoid nm cx cy cz rx ry rz col H V).indices, j < (V + 1) * H := by
  intro j hj
  simp only [GenDetailed.ellipsoid, List.mem_flatMap, List.mem_range,
    List.mem_cons, List.not_mem_nil, or_false] at hj
  obtain ⟨v, hv, h, hh, hj⟩ := hj
  have hkey : ∀ a b : ℕ, a ≤ V → b < H → a * H + b < (V + 1) * H := by
    intro a b ha hb
    calc a * H + b < a * H + H := by omega
    _ = (a + 1) * H := by ring
    _ ≤ (V + 1) * H := Nat.mul_le_mul_right _ (by omega)
  have hm : (h + 1) % H < H := Nat.mod_lt _ (by omega)
  rcases hj with rfl | rfl | rfl | rfl | rfl | rfl <;>
    first
      | exact hkey v h (by omega) hh
      | exact hkey v ((h + 1) % H) (by omega) hm
      | exact hkey (v + 1) h (by omega) hh
      | exact hkey (v + 1) ((h + 1) % H) (by omega) hm

/-! ### Positional access into the sphere builder output -/

theorem sphere_verts_getD (nm : String) (cx cy cz r : ℝ) (col : List ℝ) (H V v h : ℕ)
    (hv : v ≤ V) (hh : h < H) :
    (GenDetailed.sphere_section nm cx cy cz r col H V).verts.getD (v * H + h) (0, 0, 0)
      = (cx + r * Real.sin (((v : ℝ) / V) * Real.pi) * Real.cos (((h : ℝ) / H) * 2 * Real.pi),
         cy + r * Real.cos (((v : ℝ) / V) * Real.pi),
         cz + r * Real.sin (((v : ℝ) / V) * Real.pi) * Real.sin (((h : ℝ) / H) * 2 * Real.pi)) := by
  simp only [GenDetailed.sphere_section]
  rw [getD_range_flatMap _ H (V + 1) v h _ (fun i _ => by simp) (by omega) hh,
    getD_range_map _ H h hh]

theorem sphere_indices_block (nm : String) (cx cy cz r : ℝ) (col : List ℝ) (H V v h : ℕ)
    (hv : v < V) (hh : h < H) :
    (GenDetailed.sphere_section nm cx cy cz r col H V).indices.getD (6 * (v * H + h)) 0
        = v * H + h
    ∧ (GenDetailed.sphere_section nm cx cy cz r col H V).indices.getD (6 * (v * H + h) + 1) 0
        = v * H + (h + 1) % H
    ∧ (GenDetailed.sphere_section nm cx cy cz r col H V).indices.getD (6 * (v * H + h) + 2) 0
        = (v + 1) * H + h
    ∧ (GenDetailed.sphere_section nm cx cy cz r col H V).indices.getD (6 * (v * H + h) + 3) 0
        = v * H + (h + 1) % H
    ∧ (GenDetailed.sphere_section nm cx cy cz r col H V).indices.getD (6 * (v * H + h) + 4) 0
        = (v + 1) * H + (h + 1) % H
    ∧ (GenDetailed.sphere_section nm cx cy cz r col H V).indices.getD (6 * (v * H + h) + 5) 0
        = (v + 1) * H + h := by
  have key : ∀ t, t < 6 →
      (GenDetailed.sphere_section nm cx cy cz r col H V).indices.getD (6 * (v * H + h) + t) 0
        = [v * H + h, v * H + (h + 1) % H, (v + 1) * H + h,
           v * H + (h + 1) % H, (v + 1) * H + (h + 1) % H, (v + 1) * H + h].getD t 0 := by
    intro t ht
    simp only [GenDetailed.sphere_section]
    have harr : 6 * (v * H + h) + t = v * (6 * H) + (6 * h + t) := by ring
    rw [harr,
      getD_range_flatMap _ (6 * H) V v (6 * h + t) _
        (fun i _ => by
          rw [Nat.mul_comm 6 H]
          apply length_flatMap_range_const
          intro j
          rfl) hv (by omega)]
    have harr2 : 6 * h + t = h * 6 + t := by ring
    rw [harr2, getD_range_flatMap _ 6 H h t _ (fun i _ => by rfl) hh ht]
  have k0 := key 0 (by omega)
  have k1 := key 1 (by omega)
  have k2 := key 2 (by omega)
  have k3 := key 3 (by omega)
  have k4 := key 4 (by omega)
  have k5 := key 5 (by omega)
  simp only [List.getD_cons_zero, List.getD_cons_succ] at k0 k1 k2 k3 k4 k5
  exact ⟨by simpa using k0, k1, k2, k3, k4, k5⟩

/-! ### `Except`-model lemmas -/

theorem except_bind_ok {ε α β : Type} (a : α) (f : α → Except ε β) :
    (Except.ok a : Except ε α) >>= f = f a := rfl

theorem mapE_ok {α β : Type*} (f : α → Except String β) (g : α → β) (l : List α)
    (h : ∀ a ∈ l, f a = .ok (g a)) : mapE f l = .ok (l.map g) := by
  induction l with
  | nil => rfl
  | cons a t ih =>
      simp only [mapE]
      rw [h a (by simp), ih (fun b hb => h b (by simp [hb]))]
      rfl

theorem flatMapE_ok {α β : Type*} (f : α → Except String (List β)) (g : α → List β)
    (l : List α) (h : ∀ a ∈ l, f a = .ok (g a)) : flatMapE f l = .ok (l.flatMap g) := by
  induction l with
  | nil => rfl
  | cons a t ih =>
      simp only [flatMapE]
      rw [h a (by simp), ih (fun b hb => h b (by simp [hb]))]
      rfl

theorem mapE_pydiv_ok {β : Type} (s : ℕ) (F : ℝ → β) :
    mapE (fun (i : ℕ) => do
        let q ← pydiv (i : ℝ) s
        pure (F q)) (List.range s)
      = .ok ((List.range s).map (fun (i : ℕ) => F ((i : ℝ) / s))) := by
  apply mapE_ok
  intro i hi
  have hs : s ≠ 0 := by have := List.mem_range.mp hi; omega
  rw [show pydiv (i : ℝ) s = .ok ((i : ℝ) / s) by simp [pydiv, hs]]
  rfl

theorem flatMapE_pymod_ok (s : ℕ) (G : ℕ → ℕ → List ℕ) :
    flatMapE (fun (i : ℕ) => do
        let m ← pymod (i + 1) s
        pure (G i m)) (List.range s)
      = .ok ((List.range s).flatMap (fun (i : ℕ) => G i ((i + 1) % s))) := by
  apply flatMapE_ok
  intro i hi
  have hs : s ≠ 0 := by have := List.mem_range.mp hi; omega
  rw [show pymod (i + 1) s = .ok ((i + 1) % s) by simp [pymod, hs]]
  rfl

theorem flatMapE_of_ok {α β : Type*} (g : α → List β) (l : List α) :
    flatMapE (fun a => (Except.ok (g a) : Except String (List β))) l
      = .ok (l.flatMap g) :=
  flatMapE_ok _ _ _ (fun _ _ => rfl)

theorem cylinderE_ok (nm : String) (cx cy cz r ht : ℝ) (col : List ℝ) (s : ℕ) :
    GenDetailed.cylinderE nm cx cy cz r ht col s
      = .ok (GenDetailed.cylinder nm cx cy cz r ht col s) := by
  simp only [GenDetailed.cylinderE, mapE_pydiv_ok, flatMapE_pymod_ok, except_bind_ok]
  rfl

theorem tapered_cylinderE_ok (nm : String) (cx cy cz rb rt ht : ℝ) (col : List ℝ) (s : ℕ) :
    GenDetailed.tapered_cylinderE nm cx cy cz rb rt ht col s
      = .ok (GenDetailed.tapered_cylinder nm cx cy cz rb rt ht col s) := by
  simp only [GenDetailed.tapered_cylinderE, mapE_pydiv_ok, flatMapE_pymod_ok, except_bind_ok]
  rfl

theorem cone_meshE_ok (nm : String) (cx cy cz r ht : ℝ) (col : List ℝ) (s : ℕ) :
    GenDetailed.cone_meshE nm cx cy cz r ht col s
      = .ok (GenDetailed.cone_mesh nm cx cy cz r ht col s) := by
  simp only [GenDetailed.cone_meshE, mapE_pydiv_ok, flatMapE_pymod_ok, except_bind_ok]
  rfl

theorem sphere_sectionE_ok (nm : String) (cx cy cz r : ℝ) (col : List ℝ) (H V : ℕ)
    (hV : 1 ≤ V) :
    GenDetailed.sphere_sectionE nm cx cy cz r col H V
      = .ok (GenDetailed.sphere_section nm cx cy cz r col H V) := by
  have hVne : V ≠ 0 := by omega
  have hpd : ∀ x : ℝ, pydiv x V = .ok (x / V) := fun x => by simp [pydiv, hVne]
  simp only [GenDetailed.sphere_sectionE, mapE_pydiv_ok, hpd, except_bind_ok,
    flatMapE_pymod_ok, flatMapE_of_ok]
  rfl

theorem ellipsoidE_ok (nm : String) (cx cy cz rx ry rz : ℝ) (col : List ℝ) (H V : ℕ)
    (hV : 1 ≤ V) :
    GenDetailed.ellipsoidE nm cx cy cz rx ry rz col H V
      = .ok (GenDetailed.ellipsoid nm cx cy cz rx ry rz col H V) := by
  have hVne : V ≠ 0 := by omega
  have hpd : ∀ x : ℝ, pydiv x V = .ok (x / V) := fun x => by simp [pydiv, hVne]
  simp only [GenDetailed.ellipsoidE, mapE_pydiv_ok, hpd, except_bind_ok,
    flatMapE_pymod_ok, flatMapE_of_ok]
  rfl

/-! ### Claim theorems (Body-Plan Composer) -/

/-- C6: the wolf Body-Plan Composer `build_wolf_base` includes the
spine-ridge meshes when `body_scale = 1.2` and not when
`body_scale = 1.0`; with `include_scars = true` it inserts exactly the
three scar meshes (`scar_face`, `ear_notch`, `scar_shoulder`) directly
after the 15 base meshes, leaving every other mesh of the
`include_scars = false` result unchanged. -/
theorem claim_C6 (body_color dark_color eye_color : List ℚ)
    (bk sl eh bs : ℚ) (sc : Bool) :
    ("spine_ridge_0" ∈ (DireWolves.build_wolf_base body_color dark_color eye_color
        1.2 bk sl eh sc).map DireWolves.Mesh.name
      ∧ "spine_ridge_1" ∈ (DireWolves.build_wolf_base body_color dark_color eye_color
        1.2 bk sl eh sc).map DireWolves.Mesh.name)
    ∧ (∀ n ∈ (DireWolves.build_wolf_base body_color dark_color eye_color
        1 bk sl eh sc).map DireWolves.Mesh.name,
        n ≠ "spine_ridge_0" ∧ n ≠ "spine_ridge_1")
    ∧ DireWolves.build_wolf_base body_color dark_color eye_color bs bk sl eh true
        = (DireWolves.build_wolf_base body_color dark_color eye_color bs bk sl eh false).take 15
          ++ DireWolves.wolf_scar_meshes bk bs eh
          ++ (DireWolves.build_wolf_base body_color dark_color eye_color bs bk sl eh false).drop 15 := by
  refine ⟨?_, ?_, ?_⟩
  · have h12 : (1.2 : ℚ) > 1 := by norm_num
    cases sc <;>
      simp [DireWolves.build_wolf_base, DireWolves.wolf_ridge_meshes, h12,
        DireWolves.tri_mesh, DireWolves.wolf_scar_meshes, DireWolves.quad_mesh]
  · have h1 : ¬ ((1 : ℚ) > 1) := by norm_num
    intro n hn
    cases sc <;>
      simp [DireWolves.build_wolf_base, h1, DireWolves.wolf_scar_meshes,
        DireWolves.box_mesh, DireWolves.quad_mesh, DireWolves.tri_mesh] at hn <;>
      rcases hn with rfl | rfl | rfl | rfl | rfl | rfl | rfl | rfl | rfl | rfl |
        rfl | rfl | rfl | rfl | rfl | rfl | rfl | rfl <;> simp
  · by_cases hbs : bs > 1
    · simp only [DireWolves.build_wolf_base, if_pos hbs, if_true, if_false,
        Bool.false_eq_true, ite_false, ite_true]
      rw [List.take_left' (by rfl), List.drop_left' (by rfl), List.append_assoc]
    · simp only [DireWolves.build_wolf_base, if_neg hbs, if_true, if_false,
        Bool.false_eq_true, ite_false, ite_true]
      rw [List.take_of_length_le (by simp), List.drop_eq_nil_of_le (by simp),
        List.append_nil]

/-- C8 (counterexample): the claim "for every serialized creature asset,
the emitted text record contains a `mesh_transforms` list" is false:
the record emitted by `write_ron` of `gen_monsters2.py` (here for a
creature named `goblin` with scale = health = speed = 1 and no meshes)
contains no `mesh_transforms` list at all. -/
theorem claim_C8_counterexample :
    hasSubstr "mesh_transforms".data
      (Monsters2.write_ron_body "goblin" 1 1 1 "x" []).data = false := by
  decide

/-- C8 (amended): records serialized by `write_creature`
(`gen_detailed_meshes.py`) contain a `mesh_transforms` list with exactly
one entry per mesh, every entry being the identity transform
(translation `(0.0, 0.0, 0.0)`, rotation `(0.0, 0.0, 0.0)`, scale
`(1.0, 1.0, 1.0)`); `write_ron` of `gen_monsters2.py`, however, emits no
`mesh_transforms` list. -/
theorem claim_C8_amended (creature_id : ℤ) (nm : String) (meshes : List String)
    (scale : ℚ) :
    (GenDetailed.write_creature_transforms meshes).length = meshes.length
    ∧ (∀ t ∈ GenDetailed.write_creature_transforms meshes, t = GenDetailed.emit_transform)
    ∧ hasSubstr "translation: (0.0, 0.0, 0.0)".data GenDetailed.emit_transform.data = true
    ∧ hasSubstr "rotation: (0.0, 0.0, 0.0)".data GenDetailed.emit_transform.data = true
    ∧ hasSubstr "scale: (1.0, 1.0, 1.0)".data GenDetailed.emit_transform.data = true
    ∧ hasSubstr "mesh_transforms".data
        (GenDetailed.write_creature_body creature_id nm meshes scale).data = true
    ∧ hasSubstr "mesh_transforms".data
        (Monsters2.write_ron_body "goblin" 1 1 1 "x" []).data = false := by
  refine ⟨by simp [GenDetailed.write_creature_transforms], ?_, by decide, by decide,
    by decide, ?_, by decide⟩
  · intro t ht
    simp only [GenDetailed.write_creature_transforms, List.mem_map] at ht
    obtain ⟨a, _, h⟩ := ht
    exact h.symm
  · simp only [GenDetailed.write_creature_body, String.data_append, List.append_assoc]
    iterate 7 apply hasSubstr_append_right
    exact hasSubstr_prefix_append _ [':', ' ', '[', '\n'] _

/-- C9 (counterexample): the claim that every generator renders vertex
coordinates with 3-4 decimal places is false for `gen_dire_wolves.py`:
its `fv` uses plain `str` interpolation, and the first vertex of the
`nostrils` mesh of the Dire Wolf Leader (`build_wolf_base` with
`body_scale=1.4, bulk_scale=1.3, snout_length=1.15, ear_height=1.1,
include_scars=True`) has z-coordinate `-0.905*1.15*1.4 = -1.45705`,
rendered with 5 decimal places. -/
theorem claim_C9_counterexample :
    ((DireWolves.build_wolf_base DireWolves.ALPHA_FUR DireWolves.ALPHA_DARK
        DireWolves.ALPHA_EYE 1.4 1.3 1.15 1.1 true).getD 4
        (DireWolves.Mesh.mk "" [] [] none [])).name = "nostrils"
    ∧ ((DireWolves.build_wolf_base DireWolves.ALPHA_FUR DireWolves.ALPHA_DARK
        DireWolves.ALPHA_EYE 1.4 1.3 1.15 1.1 true).getD 4
        (DireWolves.Mesh.mk "" [] [] none [])).verts.getD 0 (0, 0, 0)
        = (-0.05*1.3*1.4, -0.04*1.4, -0.905*1.15*1.4)
    ∧ DireWolves.fv (-0.05*1.3*1.4, -0.04*1.4, -0.905*1.15*1.4)
        = "(-0.091, -0.056, -1.45705)"
    ∧ decimalPlaces (pyFloatStr (-0.905*1.15*1.4 : ℚ)) = 5 := by
  have hgt : (1.4 : ℚ) > 1 := by norm_num
  have hz : (-0.905*1.15*1.4 : ℚ) = -1.45705 := by norm_num
  have hz1 : (-1.45705 : ℚ).num = -29141 := by norm_num
  have hz2 : (-1.45705 : ℚ).den = 20000 := by norm_num
  refine ⟨?_, ?_, ?_, ?_⟩
  · simp only [DireWolves.build_wolf_base, if_pos hgt]
    rfl
  · simp only [DireWolves.build_wolf_base, if_pos hgt]
    rfl
  · have hx : (-0.05*1.3*1.4 : ℚ) = -0.091 := by norm_num
    have hy : (-0.04*1.4 : ℚ) = -0.056 := by norm_num
    have hx1 : (-0.091 : ℚ).num = -91 := by norm_num
    have hx2 : (-0.091 : ℚ).den = 1000 := by norm_num
    have hy1 : (-0.056 : ℚ).num = -7 := by norm_num
    have hy2 : (-0.056 : ℚ).den = 125 := by norm_num
    simp only [DireWolves.fv, hx, hy, hz, pyFloatStr, hx1, hx2, hy1, hy2, hz1, hz2]
    decide
  · rw [hz, pyFloatStr, hz1, hz2]
    decide

/-- C9 (amended): `gen_detailed_meshes.py` renders each coordinate with
exactly 4 decimal places and `gen_monsters2.py` with exactly 3, but
`gen_dire_wolves.py` uses the Python default float rendering, which is not
fixed-precision (a coordinate value actually emitted by it renders with
5 decimal places). -/
theorem claim_C9_amended :
    (∀ x y z : ℚ, GenDetailed.fv (x, y, z)
        = "(" ++ fmtFixed 4 x ++ ", " ++ fmtFixed 4 y ++ ", " ++ fmtFixed 4 z ++ ")")
    ∧ (∀ q : ℚ, decimalPlaces (fmtFixed 4 q) = 4)
    ∧ (∀ x y z : ℚ, Monsters2.fv (x, y, z)
        = "[" ++ fmtFixed 3 x ++ ", " ++ fmtFixed 3 y ++ ", " ++ fmtFixed 3 z ++ "]")
    ∧ (∀ q : ℚ, decimalPlaces (fmtFixed 3 q) = 3)
    ∧ decimalPlaces (pyFloatStr (-0.905 * 1.15 * 1.4 : ℚ)) = 5 := by
  refine ⟨fun x y z => rfl, fun q => decimalPlaces_fmtFixed 4 q,
    fun x y z => rfl, fun q => decimalPlaces_fmtFixed 3 q, ?_⟩
  have hz : (-0.905*1.15*1.4 : ℚ) = -1.45705 := by norm_num
  have hz1 : (-1.45705 : ℚ).num = -29141 := by norm_num
  have hz2 : (-1.45705 : ℚ).den = 20000 := by norm_num
  rw [hz, pyFloatStr, hz1, hz2]
  decide

/-- C10: for all corner arguments, `box` of `generate_characters.py` and
`box_v` of `gen_monsters2.py` produce vertex lists that are cyclic
shifts of each other by 4 (the `z0`/`z1` corner groups swapped), both
paired with the same fixed 36-entry index block, hence the same set of
8 corner positions; at corners `(0,0,0)-(1,1,1)` the resulting triangle
position lists differ (faces assigned to opposite sides). -/
theorem claim_C10 (x0 y0 z0 x1 y1 z1 : ℚ) :
    (∀ i : Fin 8, (Characters.box x0 y0 z0 x1 y1 z1).1.getD i.val (0, 0, 0)
        = (Monsters2.box_v x0 y0 z0 x1 y1 z1).getD ((i.val + 4) % 8) (0, 0, 0))
    ∧ (Characters.box x0 y0 z0 x1 y1 z1).2 = Monsters2.BOX_I
    ∧ (Characters.box x0 y0 z0 x1 y1 z1).1.Perm (Monsters2.box_v x0 y0 z0 x1 y1 z1)
    ∧ Monsters2.BOX_I.map (fun j => (Characters.box 0 0 0 1 1 1).1.getD j (0, 0, 0))
        ≠ Monsters2.BOX_I.map (fun j => (Monsters2.box_v 0 0 0 1 1 1).getD j (0, 0, 0)) := by
  refine ⟨?_, rfl, ?_, ?_⟩
  · intro i
    fin_cases i <;> rfl
  · exact @List.perm_append_comm _
      [(x0,y0,z1),(x1,y0,z1),(x1,y1,z1),(x0,y1,z1)]
      [(x0,y0,z0),(x1,y0,z0),(x1,y1,z0),(x0,y1,z0)]
  · intro h
    have h0 := congrArg List.head? h
    simp [Monsters2.BOX_I, Characters.box, Monsters2.box_v] at h0

/-- C1: for every Primitive Builder output (cylinder, tapered cylinder,
cone, sphere section, ellipsoid, and box with `BOX_I`), with any center,
radii, height and segment counts, every index is strictly less than the
number of vertices, and the number of indices is divisible by 3. -/
theorem claim_C1 (nm : String) (cx cy cz r r2 ht rx ry rz : ℝ) (col : List ℝ)
    (colq : List ℚ) (x0 y0 z0 x1 y1 z1 : ℚ) (s H V : ℕ) :
    ((∀ j ∈ (GenDetailed.cylinder nm cx cy cz r ht col s).indices,
        j < (GenDetailed.cylinder nm cx cy cz r ht col s).verts.length)
      ∧ (GenDetailed.cylinder nm cx cy cz r ht col s).indices.length % 3 = 0)
    ∧ ((∀ j ∈ (GenDetailed.tapered_cylinder nm cx cy cz r r2 ht col s).indices,
        j < (GenDetailed.tapered_cylinder nm cx cy cz r r2 ht col s).verts.length)
      ∧ (GenDetailed.tapered_cylinder nm cx cy cz r r2 ht col s).indices.length % 3 = 0)
    ∧ ((∀ j ∈ (GenDetailed.cone_mesh nm cx cy cz r ht col s).indices,
        j < (GenDetailed.cone_mesh nm cx cy cz r ht col s).verts.length)
      ∧ (GenDetailed.cone_mesh nm cx cy cz r ht col s).indices.length % 3 = 0)
    ∧ ((∀ j ∈ (GenDetailed.sphere_section nm cx cy cz r col H V).indices,
        j < (GenDetailed.sphere_section nm cx cy cz r col H V).verts.length)
      ∧ (GenDetailed.sphere_section nm cx cy cz r col H V).indices.length % 3 = 0)
    ∧ ((∀ j ∈ (GenDetailed.ellipsoid nm cx cy cz rx ry rz col H V).indices,
        j < (GenDetailed.ellipsoid nm cx cy cz rx ry rz col H V).verts.length)
      ∧ (GenDetailed.ellipsoid nm cx cy cz rx ry rz col H V).indices.length % 3 = 0)
    ∧ ((∀ j ∈ (DireWolves.box_mesh nm x0 y0 z0 x1 y1 z1 colq).indices,
        j < (DireWolves.box_mesh nm x0 y0 z0 x1 y1 z1 colq).verts.length)
      ∧ (DireWolves.box_mesh nm x0 y0 z0 x1 y1 z1 colq).indices.length % 3 = 0) := by
  refine ⟨⟨?_, ?_⟩, ⟨?_, ?_⟩, ⟨?_, ?_⟩, ⟨?_, ?_⟩, ⟨?_, ?_⟩, ⟨?_, ?_⟩⟩
  · intro j hj
    rw [cylinder_verts_length]
    exact cylinder_indices_lt nm cx cy cz r ht col s j hj
  · rw [cylinder_indices_length]; omega
  · intro j hj
    rw [tapered_verts_length]
    exact tapered_indices_lt nm cx cy cz r r2 ht col s j hj
  · rw [tapered_indices_length]; omega
  · intro j hj
    rw [cone_verts_length]
    exact cone_indices_lt nm cx cy cz r ht col s j hj
  · rw [cone_indices_length]; omega
  · intro j hj
    rw [sphere_verts_length]
    exact sphere_indices_lt nm cx cy cz r col H V j hj
  · rw [sphere_indices_length, show 6 * V * H = 3 * (2 * V * H) from by ring]
    exact Nat.mul_mod_right 3 _
  · intro j hj
    rw [ellipsoid_verts_length]
    exact ellipsoid_indices_lt nm cx cy cz rx ry rz col H V j hj
  · rw [ellipsoid_indices_length, show 6 * V * H = 3 * (2 * V * H) from by ring]
    exact Nat.mul_mod_right 3 _
  · intro j hj
    have hall : ∀ j ∈ DireWolves.BOX_I, j < 8 := by decide
    exact hall j hj
  · simp [DireWolves.box_mesh, DireWolves.BOX_I]

/-- C2: for every segment count `N` the cylinder builder produces
exactly `2N + 2` vertices and `12N` indices; with `segments = 3` it
yields 8 vertices and 36 indices. -/
theorem claim_C2 (nm : String) (cx cy cz r ht : ℝ) (col : List ℝ) (s : ℕ) :
    (GenDetailed.cylinder nm cx cy cz r ht col s).verts.length = 2 * s + 2
    ∧ (GenDetailed.cylinder nm cx cy cz r ht col s).indices.length = 12 * s
    ∧ (GenDetailed.cylinder nm cx cy cz r ht col 3).verts.length = 8
    ∧ (GenDetailed.cylinder nm cx cy cz r ht col 3).indices.length = 36 := by
  refine ⟨cylinder_verts_length nm cx cy cz r ht col s,
    cylinder_indices_length nm cx cy cz r ht col s, ?_, ?_⟩
  · rw [cylinder_verts_length]
  · rw [cylinder_indices_length]

/-- C4: `ellipsoid` with `radius_x = radius_y = radius_z = r > 0`
produces exactly the vertex positions of `sphere_section` with the same
center, radius and segment counts, and an identical index list. -/
theorem claim_C4 (nm : String) (cx cy cz r : ℝ) (col : List ℝ) (H V : ℕ)
    (hr : 0 < r) :
    (GenDetailed.ellipsoid nm cx cy cz r r r col H V).verts
      = (GenDetailed.sphere_section nm cx cy cz r col H V).verts
    ∧ (GenDetailed.ellipsoid nm cx cy cz r r r col H V).indices
      = (GenDetailed.sphere_section nm cx cy cz r col H V).indices :=
  ⟨rfl, rfl⟩

/-- C4 witness: the equivalence instantiated at center `(0,0,0)`,
radius 1, 8 horizontal and 6 vertical segments. -/
theorem claim_C4_witness :
    (0 : ℝ) < 1
    ∧ ((GenDetailed.ellipsoid "s" 0 0 0 1 1 1 [] 8 6).verts
        = (GenDetailed.sphere_section "s" 0 0 0 1 [] 8 6).verts
      ∧ (GenDetailed.ellipsoid "s" 0 0 0 1 1 1 [] 8 6).indices
        = (GenDetailed.sphere_section "s" 0 0 0 1 [] 8 6).indices) :=
  ⟨one_pos, claim_C4 "s" 0 0 0 1 [] 8 6 one_pos⟩

/-- C7 (counterexample): the claim that the Primitive Builders raise no
exception for every segment count down to 0 is false: `sphere_section`
and `ellipsoid` called with `segments_v = 0` evaluate `v / segments_v`
in the first latitude iteration and raise `ZeroDivisionError`. -/
theorem claim_C7_counterexample :
    GenDetailed.sphere_sectionE "s" 0 0 0 1 [] 3 0
      = .error "ZeroDivisionError: division by zero"
    ∧ GenDetailed.ellipsoidE "s" 0 0 0 1 1 1 [] 3 0
      = .error "ZeroDivisionError: division by zero" :=
  ⟨rfl, rfl⟩

/-- C7 (amended): under Python division semantics, `cylinder`,
`tapered_cylinder` and `cone_mesh` raise no exception for any segment
count (including 0) and return exactly what the formulas produce;
`sphere_section` and `ellipsoid` raise no exception whenever
`segments_v ≥ 1` (any `segments_h`, including 0), but raise
`ZeroDivisionError` when `segments_v = 0`. -/
theorem claim_C7_amended (nm : String) (cx cy cz r r2 ht rx ry rz : ℝ)
    (col : List ℝ) (s H V : ℕ) (hV : 1 ≤ V) :
    GenDetailed.cylinderE nm cx cy cz r ht col s
      = .ok (GenDetailed.cylinder nm cx cy cz r ht col s)
    ∧ GenDetailed.tapered_cylinderE nm cx cy cz r r2 ht col s
      = .ok (GenDetailed.tapered_cylinder nm cx cy cz r r2 ht col s)
    ∧ GenDetailed.cone_meshE nm cx cy cz r ht col s
      = .ok (GenDetailed.cone_mesh nm cx cy cz r ht col s)
    ∧ GenDetailed.sphere_sectionE nm cx cy cz r col H V
      = .ok (GenDetailed.sphere_section nm cx cy cz r col H V)
    ∧ GenDetailed.ellipsoidE nm cx cy cz rx ry rz col H V
      = .ok (GenDetailed.ellipsoid nm cx cy cz rx ry rz col H V) :=
  ⟨cylinderE_ok nm cx cy cz r ht col s,
   tapered_cylinderE_ok nm cx cy cz r r2 ht col s,
   cone_meshE_ok nm cx cy cz r ht col s,
   sphere_sectionE_ok nm cx cy cz r col H V hV,
   ellipsoidE_ok nm cx cy cz rx ry rz col H V hV⟩

/-- C7 witness: the amended claim instantiated at segment count 0 for
the solids of revolution and `segments_h = 3, segments_v = 1` for the
spheroids. -/
theorem claim_C7_amended_witness :
    (1 : ℕ) ≤ 1
    ∧ (GenDetailed.cylinderE "w" 0 0 0 1 1 [] 0
        = .ok (GenDetailed.cylinder "w" 0 0 0 1 1 [] 0)
      ∧ GenDetailed.tapered_cylinderE "w" 0 0 0 1 1 1 [] 0
        = .ok (GenDetailed.tapered_cylinder "w" 0 0 0 1 1 1 [] 0)
      ∧ GenDetailed.cone_meshE "w" 0 0 0 1 1 [] 0
        = .ok (GenDetailed.cone_mesh "w" 0 0 0 1 1 [] 0)
      ∧ GenDetailed.sphere_sectionE "w" 0 0 0 1 [] 3 1
        = .ok (GenDetailed.sphere_section "w" 0 0 0 1 [] 3 1)
      ∧ GenDetailed.ellipsoidE "w" 0 0 0 1 1 1 [] 3 1
        = .ok (GenDetailed.ellipsoid "w" 0 0 0 1 1 1 [] 3 1)) :=
  ⟨le_refl 1, claim_C7_amended "w" 0 0 0 1 1 1 1 1 1 [] 0 3 1 (le_refl 1)⟩

/-- C3: for every segment count `N` the cone builder produces exactly
`N + 2` vertices and `6N` indices; for center `(0,0,0)`, radius 1,
height 2 and 4 segments it produces exactly the 6 vertices `(0,0,0)`,
four unit-radius base-ring points in the XZ plane at 90-degree
increments, apex `(0,2,0)`, and exactly 24 indices forming 4 base and
4 side triangles. -/
theorem claim_C3 (nm : String) (cx cy cz r ht : ℝ) (col : List ℝ) (s : ℕ) :
    (GenDetailed.cone_mesh nm cx cy cz r ht col s).verts.length = s + 2
    ∧ (GenDetailed.cone_mesh nm cx cy cz r ht col s).indices.length = 6 * s
    ∧ (GenDetailed.cone_mesh nm 0 0 0 1 2 col 4).verts
        = [(0, 0, 0), (1, 0, 0), (0, 0, 1), (-1, 0, 0), (0, 0, -1), (0, 2, 0)]
    ∧ (GenDetailed.cone_mesh nm 0 0 0 1 2 col 4).indices
        = [0, 2, 1, 0, 3, 2, 0, 4, 3, 0, 1, 4, 1, 2, 5, 2, 3, 5, 3, 4, 5, 4, 1, 5] := by
  refine ⟨cone_verts_length nm cx cy cz r ht col s,
    cone_indices_length nm cx cy cz r ht col s, ?_, ?_⟩
  · have b1 : Real.cos ((1:ℝ)/2 * Real.pi) = 0 := by
      rw [show (1:ℝ)/2 * Real.pi = Real.pi/2 by ring, Real.cos_pi_div_two]
    have b2 : Real.sin ((1:ℝ)/2 * Real.pi) = 1 := by
      rw [show (1:ℝ)/2 * Real.pi = Real.pi/2 by ring, Real.sin_pi_div_two]
    have b3 : Real.cos ((3:ℝ)/2 * Real.pi) = 0 := by
      rw [show (3:ℝ)/2 * Real.pi = Real.pi + Real.pi/2 by ring, Real.cos_add]
      simp
    have b4 : Real.sin ((3:ℝ)/2 * Real.pi) = -1 := by
      rw [show (3:ℝ)/2 * Real.pi = Real.pi + Real.pi/2 by ring, Real.sin_add]
      simp
    simp only [GenDetailed.cone_mesh]
    norm_num [List.range_succ, Real.cos_pi, Real.sin_pi, Real.cos_zero, Real.sin_zero,
      Prod.ext_iff]
    exact ⟨⟨b1, b2⟩, b3, b4⟩
  · rfl

theorem sphere_pole_fan_distinct :
    GenDetailed.posAt (GenDetailed.sphere_section "s" 0 0 0 1 [0, 0, 0, 1] 3 2) 3
      ≠ GenDetailed.posAt (GenDetailed.sphere_section "s" 0 0 0 1 [0, 0, 0, 1] 3 2) 4
    ∧ GenDetailed.posAt (GenDetailed.sphere_section "s" 0 0 0 1 [0, 0, 0, 1] 3 2) 3
      ≠ GenDetailed.posAt (GenDetailed.sphere_section "s" 0 0 0 1 [0, 0, 0, 1] 3 2) 5
    ∧ GenDetailed.posAt (GenDetailed.sphere_section "s" 0 0 0 1 [0, 0, 0, 1] 3 2) 4
      ≠ GenDetailed.posAt (GenDetailed.sphere_section "s" 0 0 0 1 [0, 0, 0, 1] 3 2) 5 := by
  have t1 : Real.sin ((1:ℝ)/2 * Real.pi) = 1 := by
    rw [show (1:ℝ)/2 * Real.pi = Real.pi/2 by ring, Real.sin_pi_div_two]
  have t2 : Real.cos ((1:ℝ)/2 * Real.pi) = 0 := by
    rw [show (1:ℝ)/2 * Real.pi = Real.pi/2 by ring, Real.cos_pi_div_two]
  have t3 : Real.cos ((2:ℝ)/3 * Real.pi) = -(1/2) := by
    rw [show (2:ℝ)/3 * Real.pi = Real.pi - Real.pi/3 by ring, Real.cos_pi_sub,
      Real.cos_pi_div_three]
  have t4 : Real.sin ((2:ℝ)/3 * Real.pi) = Real.sqrt 3 / 2 := by
    rw [show (2:ℝ)/3 * Real.pi = Real.pi - Real.pi/3 by ring, Real.sin_pi_sub,
      Real.sin_pi_div_three]
  have hb3 : (GenDetailed.sphere_section "s" 0 0 0 1 [0, 0, 0, 1] 3 2).indices.getD 3 0 = 1 := by
    have h := (sphere_indices_block "s" 0 0 0 1 [0, 0, 0, 1] 3 2 0 0
      (by norm_num) (by norm_num)).2.2.2.1
    norm_num at h
    exact h
  have hb4 : (GenDetailed.sphere_section "s" 0 0 0 1 [0, 0, 0, 1] 3 2).indices.getD 4 0 = 4 := by
    have h := (sphere_indices_block "s" 0 0 0 1 [0, 0, 0, 1] 3 2 0 0
      (by norm_num) (by norm_num)).2.2.2.2.1
    norm_num at h
    exact h
  have hb5 : (GenDetailed.sphere_section "s" 0 0 0 1 [0, 0, 0, 1] 3 2).indices.getD 5 0 = 3 := by
    have h := (sphere_indices_block "s" 0 0 0 1 [0, 0, 0, 1] 3 2 0 0
      (by norm_num) (by norm_num)).2.2.2.2.2
    norm_num at h
    exact h
  have hv1 : (GenDetailed.sphere_section "s" 0 0 0 1 [0, 0, 0, 1] 3 2).verts.getD 1 (0, 0, 0)
      = ((0:ℝ), 1, 0) := by
    have h := sphere_verts_getD "s" 0 0 0 1 [0, 0, 0, 1] 3 2 0 1 (by norm_num) (by norm_num)
    norm_num [Real.sin_zero, Real.cos_zero] at h
    exact h
  have hv3 : (GenDetailed.sphere_section "s" 0 0 0 1 [0, 0, 0, 1] 3 2).verts.getD 3 (0, 0, 0)
      = ((1:ℝ), 0, 0) := by
    have h := sphere_verts_getD "s" 0 0 0 1 [0, 0, 0, 1] 3 2 1 0 (by norm_num) (by norm_num)
    norm_num [t1, t2, Real.sin_zero, Real.cos_zero] at h
    exact h
  have hv4 : (GenDetailed.sphere_section "s" 0 0 0 1 [0, 0, 0, 1] 3 2).verts.getD 4 (0, 0, 0)
      = (-(1/2 : ℝ), 0, Real.sqrt 3 / 2) := by
    have h := sphere_verts_getD "s" 0 0 0 1 [0, 0, 0, 1] 3 2 1 1 (by norm_num) (by norm_num)
    norm_num [t1, t2, t3, t4] at h
    exact h
  refine ⟨?_, ?_, ?_⟩
  · simp only [GenDetailed.posAt, hb3, hb4, hv1, hv4]
    intro h
    rw [Prod.ext_iff] at h
    norm_num at h
  · simp only [GenDetailed.posAt, hb3, hb5, hv1, hv3]
    intro h
    rw [Prod.ext_iff] at h
    norm_num at h
  · simp only [GenDetailed.posAt, hb4, hb5, hv4, hv3]
    intro h
    rw [Prod.ext_iff] at h
    norm_num at h

/-- C5 (amended): for `segments_h = H` and `segments_v = V` at least 1,
`sphere_section` yields `(V+1)*H` vertices and `2*V*H` triangles
(`3*(2*V*H)` index entries), and the `H` vertices of latitude row 0 all
equal the north pole and those of row `V` the south pole; of the two
triangles of each polar quad, the one whose edge lies in the pole row —
the first triangle of each first-row quad and the second triangle of
each last-row quad — has two coincident vertex positions and is
therefore zero-area.  Nothing more holds of the other triangle of a
polar quad in general: at `H = 3, V = 2`, radius 1, center `(0,0,0)`,
the other triangle of the first quad (index entries 3,4,5) has three
pairwise distinct vertex positions, so the original "every triangle is
degenerate, no true fan" wording fails (final conjunct). -/
theorem claim_C5_amended (nm : String) (cx cy cz r : ℝ) (col : List ℝ) (H V : ℕ)
    (hH : 1 ≤ H) (hV : 1 ≤ V) :
    ((GenDetailed.sphere_section nm cx cy cz r col H V).verts.length = (V + 1) * H
      ∧ (GenDetailed.sphere_section nm cx cy cz r col H V).indices.length = 3 * (2 * V * H))
    ∧ (∀ h < H,
        (GenDetailed.sphere_section nm cx cy cz r col H V).verts.getD h (0, 0, 0)
            = (cx, cy + r, cz)
          ∧ (GenDetailed.sphere_section nm cx cy cz r col H V).verts.getD (V * H + h) (0, 0, 0)
            = (cx, cy - r, cz))
    ∧ (∀ h < H,
        GenDetailed.posAt (GenDetailed.sphere_section nm cx cy cz r col H V) (6 * h)
            = GenDetailed.posAt (GenDetailed.sphere_section nm cx cy cz r col H V) (6 * h + 1)
          ∧ GenDetailed.posAt (GenDetailed.sphere_section nm cx cy cz r col H V)
              (6 * ((V - 1) * H + h) + 4)
            = GenDetailed.posAt (GenDetailed.sphere_section nm cx cy cz r col H V)
              (6 * ((V - 1) * H + h) + 5))
    ∧ (GenDetailed.posAt (GenDetailed.sphere_section "s" 0 0 0 1 [0, 0, 0, 1] 3 2) 3
          ≠ GenDetailed.posAt (GenDetailed.sphere_section "s" 0 0 0 1 [0, 0, 0, 1] 3 2) 4
        ∧ GenDetailed.posAt (GenDetailed.sphere_section "s" 0 0 0 1 [0, 0, 0, 1] 3 2) 3
          ≠ GenDetailed.posAt (GenDetailed.sphere_section "s" 0 0 0 1 [0, 0, 0, 1] 3 2) 5
        ∧ GenDetailed.posAt (GenDetailed.sphere_section "s" 0 0 0 1 [0, 0, 0, 1] 3 2) 4
          ≠ GenDetailed.posAt (GenDetailed.sphere_section "s" 0 0 0 1 [0, 0, 0, 1] 3 2) 5) := by
  have hVne : (V : ℝ) ≠ 0 := Nat.cast_ne_zero.mpr (by omega)
  have hdivV : ((V : ℝ) / V) * Real.pi = Real.pi := by
    rw [div_self hVne, one_mul]
  refine ⟨⟨sphere_verts_length nm cx cy cz r col H V, ?_⟩, ?_, ?_, sphere_pole_fan_distinct⟩
  · rw [sphere_indices_length]
    ring
  · intro h hh
    constructor
    · have h0 := sphere_verts_getD nm cx cy cz r col H V 0 h (by omega) hh
      simp only [zero_mul, zero_add] at h0
      rw [h0]
      simp only [Nat.cast_zero, zero_div, zero_mul, Real.sin_zero, Real.cos_zero,
        Prod.mk.injEq]
      refine ⟨by ring, by ring, by ring⟩
    · have hV0 := sphere_verts_getD nm cx cy cz r col H V V h (le_refl V) hh
      rw [hV0, hdivV]
      simp only [Real.sin_pi, Real.cos_pi, Prod.mk.injEq]
      refine ⟨by ring, by ring, by ring⟩
  · intro h hh
    have hmod : (h + 1) % H < H := Nat.mod_lt _ (by omega)
    constructor
    · have hb := sphere_indices_block nm cx cy cz r col H V 0 h (by omega) hh
      simp only [zero_mul, zero_add] at hb
      simp only [GenDetailed.posAt]
      rw [hb.1, hb.2.1]
      have h1 := sphere_verts_getD nm cx cy cz r col H V 0 h (by omega) hh
      have h2 := sphere_verts_getD nm cx cy cz r col H V 0 ((h + 1) % H) (by omega) hmod
      simp only [zero_mul, zero_add] at h1 h2
      rw [h1, h2]
      simp [Nat.cast_zero, zero_div, zero_mul, Real.sin_zero]
    · have hb := sphere_indices_block nm cx cy cz r col H V (V - 1) h (by omega) hh
      have hV1 : V - 1 + 1 = V := by omega
      rw [hV1] at hb
      simp only [GenDetailed.posAt]
      rw [hb.2.2.2.2.1, hb.2.2.2.2.2]
      have h1 := sphere_verts_getD nm cx cy cz r col H V V ((h + 1) % H) (le_refl V) hmod
      have h2 := sphere_verts_getD nm cx cy cz r col H V V h (le_refl V) hh
      rw [h1, h2, hdivV]
      simp [Real.sin_pi]

/-- C5 (counterexample): the claim that EVERY triangle in the first and
last quad rows has two coincident vertex positions is false: for
`sphere_section` with radius 1, `segments_h = 3`, `segments_v = 2`, the
second triangle of the first quad (index entries 3,4,5) has three
pairwise distinct vertex positions — it is a genuine fan triangle at
the north pole. -/
theorem claim_C5_counterexample :
    GenDetailed.posAt (GenDetailed.sphere_section "s" 0 0 0 1 [0, 0, 0, 1] 3 2) 3
      ≠ GenDetailed.posAt (GenDetailed.sphere_section "s" 0 0 0 1 [0, 0, 0, 1] 3 2) 4
    ∧ GenDetailed.posAt (GenDetailed.sphere_section "s" 0 0 0 1 [0, 0, 0, 1] 3 2) 3
      ≠ GenDetailed.posAt (GenDetailed.sphere_section "s" 0 0 0 1 [0, 0, 0, 1] 3 2) 5
    ∧ GenDetailed.posAt (GenDetailed.sphere_section "s" 0 0 0 1 [0, 0, 0, 1] 3 2) 4
      ≠ GenDetailed.posAt (GenDetailed.sphere_section "s" 0 0 0 1 [0, 0, 0, 1] 3 2) 5 :=
  sphere_pole_fan_distinct

/-- C5 witness: the amended claim instantiated at center `(0,0,0)`,
radius 1, `segments_h = 3`, `segments_v = 2`. -/
theorem claim_C5_amended_witness :
    (1 : ℕ) ≤ 3 ∧ (1 : ℕ) ≤ 2
    ∧ (((GenDetailed.sphere_section "s" 0 0 0 1 [] 3 2).verts.length = (2 + 1) * 3
        ∧ (GenDetailed.sphere_section "s" 0 0 0 1 [] 3 2).indices.length = 3 * (2 * 2 * 3))
      ∧ (∀ h < 3, (GenDetailed.sphere_section "s" 0 0 0 1 [] 3 2).verts.getD h (0, 0, 0)
              = ((0:ℝ), 0 + 1, 0)
          ∧ (GenDetailed.sphere_section "s" 0 0 0 1 [] 3 2).verts.getD (2 * 3 + h) (0, 0, 0)
              = ((0:ℝ), 0 - 1, 0))
      ∧ (∀ h < 3, GenDetailed.posAt (GenDetailed.sphere_section "s" 0 0 0 1 [] 3 2) (6 * h)
              = GenDetailed.posAt (GenDetailed.sphere_section "s" 0 0 0 1 [] 3 2) (6 * h + 1)
          ∧ GenDetailed.posAt (GenDetailed.sphere_section "s" 0 0 0 1 [] 3 2)
              (6 * ((2 - 1) * 3 + h) + 4)
            = GenDetailed.posAt (GenDetailed.sphere_section "s" 0 0 0 1 [] 3 2)
              (6 * ((2 - 1) * 3 + h) + 5))
      ∧ (GenDetailed.posAt (GenDetailed.sphere_section "s" 0 0 0 1 [0, 0, 0, 1] 3 2) 3
            ≠ GenDetailed.posAt (GenDetailed.sphere_section "s" 0 0 0 1 [0, 0, 0, 1] 3 2) 4
          ∧ GenDetailed.posAt (GenDetailed.sphere_section "s" 0 0 0 1 [0, 0, 0, 1] 3 2) 3
            ≠ GenDetailed.posAt (GenDetailed.sphere_section "s" 0 0 0 1 [0, 0, 0, 1] 3 2) 5
          ∧ GenDetailed.posAt (GenDetailed.sphere_section "s" 0 0 0 1 [0, 0, 0, 1] 3 2) 4
            ≠ GenDetailed.posAt (GenDetailed.sphere_section "s" 0 0 0 1 [0, 0, 0, 1] 3 2) 5)) :=
  ⟨by decide, by decide, claim_C5_amended "s" 0 0 0 1 [] 3 2 (by decide) (by decide)⟩

end Antares
